import Mathlib

/-!
Shallow embedding of the client-side logic of the VR gear catalog page
(`script.js`, plus the earlier script variant), together with proofs of the
behavioural properties stated for it.

The DOM is treated as an external collaborator: functions that in the source
read input elements or card elements are embedded as functions of the values
those elements would supply, and functions that render are embedded by the
data they would render.  Browser storage is embedded as explicit state
passing over a `Store` record; the JSON-parse boundary of the storage
accessors is embedded with an explicit outcome type (`ReadOutcome`).
-/

namespace VRSite

/-! String primitives (models of the JavaScript string builtins used) -/

/-- Model of prefix testing on character lists: `matchesAt needle hay` is
`true` iff `needle` occurs at the start of `hay`. -/
def matchesAt : List Char → List Char → Bool
  | [], _ => true
  | _ :: _, [] => false
  | n :: ns, h :: hs => n == h && matchesAt ns hs

/-- Substring occurrence on character lists: `true` iff `needle` occurs
contiguously somewhere in `hay` (the empty needle always occurs). -/
def hasSubList (needle : List Char) : List Char → Bool
  | [] => matchesAt needle []
  | h :: hs => matchesAt needle (h :: hs) || hasSubList needle hs

/-- Model of JavaScript `hay.includes(needle)` for strings. -/
def jsIncludes (hay needle : String) : Bool :=
  hasSubList needle.data hay.data

/-- Model of JavaScript `String.prototype.toLowerCase`. -/
def jsToLower (s : String) : String :=
  ⟨s.data.map Char.toLower⟩

/-- Model of JavaScript `String.prototype.trim`: strip leading and trailing
whitespace. -/
def jsTrim (s : String) : String :=
  ⟨((s.data.dropWhile Char.isWhitespace).reverse.dropWhile Char.isWhitespace).reverse⟩

/-! Catalog cards and the filter (`filterCards`, script.js lines 100-111,
and the live search handler of the earlier script variant) -/

/-- A catalog card as the filter sees it: its `data-name`, `data-category`
and its full `textContent`. -/
structure Card where
  name : String
  category : String
  text : String
deriving DecidableEq

/-- Per-card visibility computed by `filterCards` (script.js 100-111):
`inputValue` is the raw search input value, `selectedCategory` the category
dropdown value (`"All"` when the dropdown is absent).  The card is shown iff
the category matches and the lowercased text includes the trimmed,
lowercased query. -/
def filterVisible (inputValue selectedCategory : String) (card : Card) : Bool :=
  let query := jsToLower (jsTrim inputValue)
  let text := jsToLower card.text
  let matchesCategory := selectedCategory == "All" || card.category == selectedCategory
  let matchesQuery := jsIncludes text query
  matchesCategory && matchesQuery

/-- Spec-side predicate: `text` contains `query` as a case-insensitive
substring (no trimming). -/
def containsCaseless (text query : String) : Bool :=
  jsIncludes (jsToLower text) (jsToLower query)

/-- Per-card visibility computed by the standalone live search handler of
the earlier script variant (`src/unnamed/part_000`, lines 25-37): trim and
lowercase the input, show the card iff its lowercased text includes it. -/
def oldFilterVisible (inputValue : String) (card : Card) : Bool :=
  let query := jsToLower (jsTrim inputValue)
  jsIncludes (jsToLower card.text) query

/-- Concrete card used to exercise the filter on explicit inputs. -/
def cardX : Card :=
  { name := "X", category := "Audio", text := "x" }

/-! Recommendation quiz (`quizQuestions` at script.js 875-888 and the
candidate computation inside `displayRecommendations`, lines 925-1005) -/

/-- The fixed three quiz questions, in order: use-case, budget, priority.
The response sequence collects one answer per question in this order. -/
def quizQuestions : List (String × List String) :=
  [("What do you primarily use VR for?", ["Gaming", "Fitness", "Productivity", "Social"]),
   ("What is your budget?", ["Low", "Medium", "High"]),
   ("Which feature matters most to you?", ["Comfort", "Audio", "Haptics", "Battery"])]

/-- The helper `addUnique` of `displayRecommendations`: append a candidate unless it is
already present (duplicate suppression, first occurrence wins). -/
def addUnique (recs : List String) (name : String) : List String :=
  if name ∈ recs then recs else recs ++ [name]

/-- Sequentially `addUnique` a list of contributed candidate names. -/
def addAll (recs : List String) (names : List String) : List String :=
  names.foldl addUnique recs

/-- Candidates contributed by the use-case answer (script.js 948-964). -/
def useCaseNames (useCase : String) : List String :=
  if useCase == "Gaming" then
    ["VR Gun Stock (AMVR)", "Shadow Shot VR Bow", "Weighted Golf Club Attachment (DriVR Elite)"]
  else if useCase == "Fitness" then
    ["Ringside Weighted Exercise Gloves", "Skywin VR Mat", "Weighted Golf Club Attachment (DriVR Elite)"]
  else if useCase == "Productivity" then
    ["Meta Quest Link Cable", "Syntech 16 ft Link Cable", "Casematix Hard Case"]
  else if useCase == "Social" then
    ["SteelSeries Arctis Nova 4 Headphones", "PRISMXR Low-Latency Earphones",
     "KIWI Design K4 Duo Audio & Battery Strap"]
  else []

/-- Candidates contributed by the priority answer (script.js 966-979). -/
def priorityNames (priority : String) : List String :=
  if priority == "Comfort" then
    ["KIWI Design K4 Mini Head Strap", "BOBOVR M3 Pro Head Strap"]
  else if priority == "Audio" then
    ["SteelSeries Arctis Nova 4 Headphones", "PRISMXR Low-Latency Earphones"]
  else if priority == "Haptics" then
    ["Woojer Vest 3 Haptic Vest", "bHaptics TactSuit X16"]
  else if priority == "Battery" then
    ["BOBOVR S3 Pro Battery Strap", "YOGES Charging Station", "PRISMXR Carina D1 Charging Dock"]
  else []

/-- Candidates contributed by the budget answer (script.js 981-984). -/
def budgetNames (budget : String) : List String :=
  if budget == "High" then ["Roto VR Explorer Chair", "VIVE Ultimate Tracker"] else []

/-- The candidate recommendation list computed by `displayRecommendations`
from the response sequence `[useCase, budget, priority]`: use-case
candidates, then priority candidates, then budget candidates, each added
with `addUnique`. -/
def recsFor (responses : List String) : List String :=
  let useCase := responses.getD 0 ""
  let budget := responses.getD 1 ""
  let priority := responses.getD 2 ""
  addAll (addAll (addAll [] (useCaseNames useCase)) (priorityNames priority)) (budgetNames budget)

/-- The recommendations actually rendered: `recs.slice(0, 4)`
(script.js 991). -/
def displayedRecs (responses : List String) : List String :=
  (recsFor responses).take 4

/-! Persisted state: counters, achievements, points, favorites, compare
list.  Browser storage is embedded as a `Store` record threaded through the
operations; JavaScript objects used as maps become association lists. -/

/-- A JavaScript object used as a string-keyed counter map. -/
abbrev StatsMap := List (String × Nat)

/-- Model of `stats[k] || 0`: the value stored under the first occurrence of
key `k`, defaulting to `0`. -/
def lookupNat : StatsMap → String → Nat
  | [], _ => 0
  | (k₀, v₀) :: rest, k => if k₀ = k then v₀ else lookupNat rest k

/-- Model of the JavaScript assignment `obj[k] = v` on a counter map:
replace the first binding of `k`, or append one. -/
def setKey : StatsMap → String → Nat → StatsMap
  | [], k, v => [(k, v)]
  | (k₀, v₀) :: rest, k, v => if k₀ = k then (k, v) :: rest else (k₀, v₀) :: setKey rest k v

/-- Function `incrementStat` (script.js 265-269): bump the counter for `metric` by
one, treating a missing entry as `0`. -/
def incrementStat (metric : String) (stats : StatsMap) : StatsMap :=
  setKey stats metric (lookupNat stats metric + 1)

/-- Iteration of `incrementStat metric`, applied `k` times starting from the empty
persisted counter map. -/
def repeatIncrement (metric : String) : Nat → StatsMap
  | 0 => []
  | k + 1 => incrementStat metric (repeatIncrement metric k)

/-- A JavaScript object used as a string-keyed boolean map (the persisted
achievement unlock set). -/
abbrev UnlockMap := List (String × Bool)

/-- Model of `unlocked[k]` read as a boolean: first binding of `k`,
defaulting to `false` (missing key is falsy). -/
def getFlag : UnlockMap → String → Bool
  | [], _ => false
  | (k₀, b) :: rest, k => if k₀ = k then b else getFlag rest k

/-- Model of `unlocked[k] = true`. -/
def setFlag : UnlockMap → String → UnlockMap
  | [], k => [(k, true)]
  | (k₀, b) :: rest, k => if k₀ = k then (k, true) :: rest else (k₀, b) :: setFlag rest k

/-- An achievement definition (script.js 239-250). -/
structure AchievementDef where
  key : String
  metric : String
  threshold : Nat
  title : String
  icon : String
  desc : String
deriving DecidableEq

/-- The static achievement table `achievementDefs` (script.js 239-250). -/
def achievementDefs : List AchievementDef :=
  [⟨"shopper", "shopClicks", 10, "Shopper", "🛍️", "Clicked 10 Shop Now buttons"⟩,
   ⟨"collector", "favoritesAdded", 5, "Collector", "⭐", "Added 5 favorites"⟩,
   ⟨"explorer", "quickViews", 10, "Explorer", "🔍", "Opened 10 Quick Views"⟩,
   ⟨"quizMaster", "quizCompleted", 1, "Quiz Master", "🎓", "Completed the quiz"⟩,
   ⟨"voiceSearcher", "voiceSearches", 1, "Voice Searcher", "🎤", "Used voice search"⟩,
   ⟨"stylist", "colorsChanged", 1, "Custom Stylist", "🎨", "Changed the accent color"⟩,
   ⟨"categoryExplorer", "categoryChanges", 5, "Category Explorer", "🗂️", "Explored 5 categories"⟩,
   ⟨"sortMaster", "sortChanges", 1, "Sort Master", "↕️", "Used sorting options"⟩,
   ⟨"randomExplorer", "surprises", 1, "Random Explorer", "🎲", "Used the Surprise Me button"⟩,
   ⟨"memoryMaster", "memoryGamesCompleted", 1, "Memory Master", "🧠", "Completed the Memory Match Game"⟩]

/-- The scan loop of `checkAchievements` (script.js 329-337): walk the
definitions; every not-yet-unlocked definition whose counter reached its
threshold is marked unlocked.  Returns the resulting unlock map and the
`unlockedNew` flag (`true` iff at least one definition was newly marked). -/
def scanUnlocks (stats : StatsMap) : List AchievementDef → UnlockMap → UnlockMap × Bool
  | [], unlocked => (unlocked, false)
  | d :: rest, unlocked =>
    if getFlag unlocked d.key = false ∧ d.threshold ≤ lookupNat stats d.metric then
      ((scanUnlocks stats rest (setFlag unlocked d.key)).1, true)
    else
      scanUnlocks stats rest unlocked

/-- The whole persisted and effect-visible state the gamification logic
touches.  `confettiBursts` counts firings of the one-shot celebration
(`triggerConfetti`), which in the source is a pure DOM effect. -/
structure Store where
  userPoints : Nat
  userStats : StatsMap
  achievementsUnlocked : UnlockMap
  favorites : List String
  compareList : List String
  confettiBursts : Nat
deriving DecidableEq

/-- Function `addPoints` (script.js 196-200): add to the persisted score (the
scoreboard re-render is a DOM effect). -/
def addPoints (amount : Nat) (s : Store) : Store :=
  { s with userPoints := s.userPoints + amount }

/-- Function `checkAchievements` (script.js 325-350): scan the definitions against
the counters; if anything newly unlocked, persist the unlock map, fire the
celebration once, and grant a single `+5` bonus via `addPoints` — once per
call, however many definitions unlocked. -/
def checkAchievements (s : Store) : Store :=
  let res := scanUnlocks s.userStats achievementDefs s.achievementsUnlocked
  if res.2 then
    addPoints 5
      { s with achievementsUnlocked := res.1, confettiBursts := s.confettiBursts + 1 }
  else
    s

/-- Model of `list.splice(list.indexOf(name), 1)`: remove the first
occurrence of `name`. -/
def removeFirst (name : String) : List String → List String
  | [] => []
  | x :: rest => if x = name then rest else x :: removeFirst name rest

/-- Function `toggleFavorite` (script.js 574-598): remove the name if present;
otherwise append it, grant `+5` points, count a `favoritesAdded`, and run
the achievement evaluator.  Icon/panel updates are DOM effects. -/
def toggleFavorite (name : String) (s : Store) : Store :=
  if name ∈ s.favorites then
    { s with favorites := removeFirst name s.favorites }
  else
    let s₁ := addPoints 5 { s with favorites := s.favorites ++ [name] }
    checkAchievements { s₁ with userStats := incrementStat "favoritesAdded" s₁.userStats }

/-- Whether a call `toggleFavorite name` on state `s` takes the add branch,
which is exactly when its `+5` favorite grant is made. -/
def favoriteGrantOccurs (name : String) (s : Store) : Bool :=
  decide (name ∉ s.favorites)

/-- Function `toggleCompare` (script.js 753-768): remove the name if present;
otherwise, if the list already holds 3 items, shift off index 0 before
appending the new name. -/
def toggleCompare (name : String) (s : Store) : Store :=
  if name ∈ s.compareList then
    { s with compareList := removeFirst name s.compareList }
  else
    let list := if 3 ≤ s.compareList.length then s.compareList.tail else s.compareList
    { s with compareList := list ++ [name] }

/-- Fold a sequence of `toggleCompare` calls over a state. -/
def runCompares (names : List String) (s : Store) : Store :=
  names.foldl (fun t n => toggleCompare n t) s

/-- The state-modifying operations of the page, as a small command
language, used to quantify over arbitrary interaction sequences. -/
inductive Op where
  | stat (metric : String)
  | check
  | points (n : Nat)
  | fav (name : String)
  | comp (name : String)
deriving DecidableEq

/-- Interpret one operation on the store. -/
def applyOp : Op → Store → Store
  | .stat metric, s => { s with userStats := incrementStat metric s.userStats }
  | .check, s => checkAchievements s
  | .points n, s => addPoints n s
  | .fav name, s => toggleFavorite name s
  | .comp name, s => toggleCompare name s

/-- Interpret a sequence of operations, left to right. -/
def applyOps (ops : List Op) (s : Store) : Store :=
  ops.foldl (fun t o => applyOp o t) s

/-! The storage-read boundary (script.js 253-259, 271-277, 404-410,
483-489, 743-749).  Each accessor does
`try { return JSON.parse(localStorage.getItem(key)) || default } catch { return default }`.
`JSON.parse` is a host builtin, so its outcome is embedded as a sum:
`failed` is a stored blob on which the parse throws (malformed JSON),
`missing` is an absent key or a parsed falsy value, and `value v` is a
successfully parsed value of the expected shape. -/

/-- Outcome of reading one persisted key and JSON-parsing its blob. -/
inductive ReadOutcome (α : Type) where
  | failed : ReadOutcome α
  | missing : ReadOutcome α
  | value : α → ReadOutcome α
deriving DecidableEq

/-- Function `getStats` (script.js 253-259): parse the `userStats` blob, falling
back to the empty map when the parse throws or yields nothing. -/
def getStats : ReadOutcome StatsMap → StatsMap
  | .value v => v
  | _ => []

/-- Function `getUnlockedAchievements` (script.js 271-277). -/
def getUnlockedAchievements : ReadOutcome UnlockMap → UnlockMap
  | .value v => v
  | _ => []

/-- Function `getTrendingCounts` (script.js 404-410). -/
def getTrendingCounts : ReadOutcome (List (String × Nat)) → List (String × Nat)
  | .value v => v
  | _ => []

/-- Function `getFavorites` (script.js 483-489). -/
def getFavorites : ReadOutcome (List String) → List String
  | .value v => v
  | _ => []

/-- Function `getCompareList` (script.js 743-749). -/
def getCompareList : ReadOutcome (List String) → List String
  | .value v => v
  | _ => []

/-! Memory match game (`startMemoryGame`, script.js 1055-1078) -/

/-- The eight VR-themed icons (script.js 1064). -/
def memoryIcons : List String :=
  ["🎮", "🔫", "🧤", "🎧", "🧠", "🎒", "🕶️", "🪀"]

/-- The deck `icons.concat(icons)` before the shuffle.  The shuffle
`sort(() => Math.random() - 0.5)` rearranges these elements, so every board
a game starts with is a permutation of this deck. -/
def memoryDeck : List String :=
  memoryIcons ++ memoryIcons

/-! Concrete states used to instantiate the theorems -/

/-- The freshly initialised store: nothing persisted yet. -/
def emptyStore : Store :=
  { userPoints := 0, userStats := [], achievementsUnlocked := [], favorites := [],
    compareList := [], confettiBursts := 0 }

/-- A store whose counters unlock two achievements simultaneously
(`quizMaster` and `voiceSearcher`) on the next evaluation. -/
def doubleUnlockStore : Store :=
  { emptyStore with userStats := [("quizCompleted", 1), ("voiceSearches", 1)] }

/-- A store with the `quizMaster` achievement already unlocked. -/
def unlockedStore : Store :=
  { emptyStore with achievementsUnlocked := [("quizMaster", true)] }

/-- A store with a favorite recorded on either side of `"n"`. -/
def favStore : Store :=
  { emptyStore with favorites := ["a", "n", "b"] }

/-- A store whose compare list is full. -/
def fullCompareStore : Store :=
  { emptyStore with compareList := ["a", "b", "c"] }

/-! Helper lemmas about the map and list primitives -/

theorem lookupNat_setKey (stats : StatsMap) (k : String) (v : Nat) (k' : String) :
    lookupNat (setKey stats k v) k' = if k = k' then v else lookupNat stats k' := by
  induction stats with
  | nil => simp [setKey, lookupNat]
  | cons hd tl ih =>
    obtain ⟨k₀, v₀⟩ := hd
    by_cases h₀ : k₀ = k
    · subst h₀
      simp only [setKey, if_pos rfl, lookupNat]
      by_cases h₁ : k₀ = k'
      · simp [h₁]
      · simp [h₁]
    · simp only [setKey, if_neg h₀, lookupNat]
      by_cases h₁ : k₀ = k'
      · have : ¬ k = k' := fun he => h₀ (he ▸ h₁)
        simp [h₁, this]
      · simp [h₁, ih]

theorem lookupNat_incrementStat (metric : String) (stats : StatsMap) (k : String) :
    lookupNat (incrementStat metric stats) k =
      if metric = k then lookupNat stats k + 1 else lookupNat stats k := by
  unfold incrementStat
  rw [lookupNat_setKey]
  by_cases h : metric = k
  · subst h; simp
  · simp [h]

theorem getFlag_setFlag (u : UnlockMap) (k k' : String) :
    getFlag (setFlag u k) k' = if k = k' then true else getFlag u k' := by
  induction u with
  | nil => simp [setFlag, getFlag]
  | cons hd tl ih =>
    obtain ⟨k₀, b⟩ := hd
    by_cases h₀ : k₀ = k
    · subst h₀
      simp only [setFlag, if_pos rfl, getFlag]
      by_cases h₁ : k₀ = k'
      · simp [h₁]
      · simp [h₁]
    · simp only [setFlag, if_neg h₀, getFlag]
      by_cases h₁ : k₀ = k'
      · have : ¬ k = k' := fun he => h₀ (he ▸ h₁)
        simp [h₁, this]
      · simp [h₁, ih]

theorem scanUnlocks_preserves (stats : StatsMap) (defs : List AchievementDef)
    (u : UnlockMap) (k : String) (h : getFlag u k = true) :
    getFlag (scanUnlocks stats defs u).1 k = true := by
  induction defs generalizing u with
  | nil => exact h
  | cons d rest ih =>
    simp only [scanUnlocks]
    split_ifs with hc
    · exact ih (setFlag u d.key) (by rw [getFlag_setFlag]; split_ifs <;> simp [h])
    · exact ih u h

theorem checkAchievements_favorites (s : Store) :
    (checkAchievements s).favorites = s.favorites := by
  simp only [checkAchievements]
  split_ifs <;> rfl

theorem checkAchievements_compareList (s : Store) :
    (checkAchievements s).compareList = s.compareList := by
  simp only [checkAchievements]
  split_ifs <;> rfl

theorem checkAchievements_preserves (s : Store) (k : String)
    (h : getFlag s.achievementsUnlocked k = true) :
    getFlag (checkAchievements s).achievementsUnlocked k = true := by
  simp only [checkAchievements]
  split_ifs
  · exact scanUnlocks_preserves s.userStats achievementDefs s.achievementsUnlocked k h
  · exact h

theorem removeFirst_of_not_mem (name : String) (l : List String) (h : name ∉ l) :
    removeFirst name l = l := by
  induction l with
  | nil => rfl
  | cons x rest ih =>
    have hx : ¬ x = name := fun he => h (he ▸ List.mem_cons_self x rest)
    have hr : name ∉ rest := fun hm => h (List.mem_cons_of_mem x hm)
    simp [removeFirst, hx, ih hr]

theorem removeFirst_length_le (name : String) (l : List String) :
    (removeFirst name l).length ≤ l.length := by
  induction l with
  | nil => exact Nat.le_refl 0
  | cons x rest ih =>
    simp only [removeFirst]
    split_ifs
    · simp [Nat.le_succ]
    · simpa using Nat.succ_le_succ ih

theorem not_mem_removeFirst (name : String) (l : List String) (h : l.Nodup) :
    name ∉ removeFirst name l := by
  induction l with
  | nil => simp [removeFirst]
  | cons x rest ih =>
    obtain ⟨hx, hrest⟩ := List.nodup_cons.mp h
    simp only [removeFirst]
    split_ifs with he
    · exact fun hm => hx (he ▸ hm)
    · intro hm
      rcases List.mem_cons.mp hm with h₁ | h₂
      · exact he h₁.symm
      · exact ih hrest h₂

theorem removeFirst_append_perm (name : String) (l : List String) (h : name ∈ l) :
    (removeFirst name l ++ [name]).Perm l := by
  induction l with
  | nil => cases h
  | cons x rest ih =>
    by_cases he : x = name
    · subst he
      simp only [removeFirst, if_pos rfl]
      exact List.perm_append_singleton x rest
    · have hr : name ∈ rest := by
        rcases List.mem_cons.mp h with h₁ | h₂
        · exact absurd h₁.symm he
        · exact h₂
      simp only [removeFirst, if_neg he, List.cons_append]
      exact List.Perm.cons x (ih hr)

theorem removeFirst_append_self (name : String) (l : List String) (h : name ∉ l) :
    removeFirst name (l ++ [name]) = l := by
  induction l with
  | nil => simp [removeFirst]
  | cons x rest ih =>
    have hx : ¬ x = name := fun he => h (he ▸ List.mem_cons_self x rest)
    have hr : name ∉ rest := fun hm => h (List.mem_cons_of_mem x hm)
    simp [removeFirst, hx, ih hr]

theorem toggleFavorite_favorites (name : String) (s : Store) :
    (toggleFavorite name s).favorites =
      if name ∈ s.favorites then removeFirst name s.favorites
      else s.favorites ++ [name] := by
  simp only [toggleFavorite]
  split_ifs with h
  · rfl
  · rw [checkAchievements_favorites]
    rfl

theorem toggleFavorite_compareList (name : String) (s : Store) :
    (toggleFavorite name s).compareList = s.compareList := by
  simp only [toggleFavorite]
  split_ifs with h
  · rfl
  · rw [checkAchievements_compareList]
    rfl

theorem toggleCompare_compareList (name : String) (s : Store) :
    (toggleCompare name s).compareList =
      if name ∈ s.compareList then removeFirst name s.compareList
      else (if 3 ≤ s.compareList.length then s.compareList.tail else s.compareList) ++ [name] := by
  simp only [toggleCompare]
  split_ifs <;> rfl

theorem toggleCompare_length (name : String) (s : Store)
    (h : s.compareList.length ≤ 3) :
    (toggleCompare name s).compareList.length ≤ 3 := by
  rw [toggleCompare_compareList]
  have ht := List.length_tail s.compareList
  split_ifs with hmem hlen
  · exact Nat.le_trans (removeFirst_length_le name s.compareList) h
  · simp only [List.length_append, List.length_singleton]
    omega
  · simp only [List.length_append, List.length_singleton]
    omega

theorem applyOp_preserves (o : Op) (s : Store) (k : String)
    (h : getFlag s.achievementsUnlocked k = true) :
    getFlag (applyOp o s).achievementsUnlocked k = true := by
  cases o with
  | stat m => exact h
  | check => exact checkAchievements_preserves s k h
  | points n => exact h
  | fav name =>
    simp only [applyOp, toggleFavorite]
    split_ifs with hmem
    · exact h
    · exact checkAchievements_preserves _ k h
  | comp name =>
    simp only [applyOp, toggleCompare]
    split_ifs <;> exact h

/-! Claim theorems -/

/-- C1: for the quiz response sequence `["Gaming", "High", "Comfort"]`
(use-case, budget, priority), the candidate list computed before display
contains the six named products as a sublist in first-occurrence order —
the two use-case items first, then the two priority items, then the two
budget items — and only the first 4 candidates are displayed. -/
theorem quiz_gaming_high_comfort_recs :
    recsFor ["Gaming", "High", "Comfort"] =
      ["VR Gun Stock (AMVR)", "Shadow Shot VR Bow",
       "Weighted Golf Club Attachment (DriVR Elite)",
       "KIWI Design K4 Mini Head Strap", "BOBOVR M3 Pro Head Strap",
       "Roto VR Explorer Chair", "VIVE Ultimate Tracker"] ∧
    List.Sublist
      ["VR Gun Stock (AMVR)", "Shadow Shot VR Bow",
       "KIWI Design K4 Mini Head Strap", "BOBOVR M3 Pro Head Strap",
       "Roto VR Explorer Chair", "VIVE Ultimate Tracker"]
      (recsFor ["Gaming", "High", "Comfort"]) ∧
    displayedRecs ["Gaming", "High", "Comfort"] =
      (recsFor ["Gaming", "High", "Comfort"]).take 4 ∧
    displayedRecs ["Gaming", "High", "Comfort"] =
      ["VR Gun Stock (AMVR)", "Shadow Shot VR Bow",
       "Weighted Golf Club Attachment (DriVR Elite)",
       "KIWI Design K4 Mini Head Strap"] := by
  refine ⟨by decide, by decide, rfl, by decide⟩

/-- C2: over any valid favorites state (the favorites set holds unique
names), toggling the same name twice restores the favorites set — the
result is a permutation of the original list, and exactly the original
list when the name was not a favorite to begin with — and the add
branch with its `+5` grant runs at most once across the two calls. -/
theorem toggleFavorite_twice (name : String) (s : Store) (h : s.favorites.Nodup) :
    ((toggleFavorite name (toggleFavorite name s)).favorites).Perm s.favorites ∧
    (name ∉ s.favorites →
      (toggleFavorite name (toggleFavorite name s)).favorites = s.favorites) ∧
    (if favoriteGrantOccurs name s then 1 else 0) +
      (if favoriteGrantOccurs name (toggleFavorite name s) then 1 else 0) ≤ 1 := by
  by_cases hm : name ∈ s.favorites
  · have h₁ : (toggleFavorite name s).favorites = removeFirst name s.favorites := by
      rw [toggleFavorite_favorites, if_pos hm]
    have hnot : name ∉ (toggleFavorite name s).favorites := by
      rw [h₁]; exact not_mem_removeFirst name s.favorites h
    have h₂ : (toggleFavorite name (toggleFavorite name s)).favorites =
        removeFirst name s.favorites ++ [name] := by
      rw [toggleFavorite_favorites, if_neg hnot, h₁]
    refine ⟨?_, fun hc => absurd hm hc, ?_⟩
    · rw [h₂]
      exact removeFirst_append_perm name s.favorites hm
    · have g₁ : favoriteGrantOccurs name s = false := by
        simp [favoriteGrantOccurs, hm]
      simp [g₁]
      split_ifs <;> omega
  · have h₁ : (toggleFavorite name s).favorites = s.favorites ++ [name] := by
      rw [toggleFavorite_favorites, if_neg hm]
    have hmem : name ∈ (toggleFavorite name s).favorites := by
      rw [h₁]; exact List.mem_append_right _ (List.mem_singleton.mpr rfl)
    have h₂ : (toggleFavorite name (toggleFavorite name s)).favorites = s.favorites := by
      rw [toggleFavorite_favorites, if_pos hmem, h₁]
      exact removeFirst_append_self name s.favorites hm
    have g₂ : favoriteGrantOccurs name (toggleFavorite name s) = false := by
      simp [favoriteGrantOccurs, hmem]
    refine ⟨h₂ ▸ List.Perm.refl s.favorites, fun _ => h₂, ?_⟩
    simp [g₂]
    split_ifs <;> omega

/-- Witness for C2 at the concrete state `favStore` (favorites
`["a", "n", "b"]`) and name `"n"`. -/
theorem toggleFavorite_twice_witness :
    ((toggleFavorite "n" (toggleFavorite "n" favStore)).favorites).Perm favStore.favorites ∧
    ("n" ∉ favStore.favorites →
      (toggleFavorite "n" (toggleFavorite "n" favStore)).favorites = favStore.favorites) ∧
    (if favoriteGrantOccurs "n" favStore then 1 else 0) +
      (if favoriteGrantOccurs "n" (toggleFavorite "n" favStore) then 1 else 0) ≤ 1 :=
  toggleFavorite_twice "n" favStore (by decide)

/-- C3: starting from any state whose compare list holds at most 3 items,
no sequence of `toggleCompare` calls ever makes it exceed 3; and a call
with a distinct 4th name when the list holds exactly 3 evicts index 0 (the
earliest-added member, FIFO) and appends the new name. -/
theorem toggleCompare_bound_and_fifo :
    (∀ (s : Store) (names : List String), s.compareList.length ≤ 3 →
      (runCompares names s).compareList.length ≤ 3) ∧
    (∀ (s : Store) (name : String), s.compareList.length = 3 → name ∉ s.compareList →
      (toggleCompare name s).compareList = s.compareList.tail ++ [name]) := by
  constructor
  · intro s names
    induction names generalizing s with
    | nil => exact fun h => h
    | cons n rest ih =>
      intro h
      exact ih (toggleCompare n s) (toggleCompare_length n s h)
  · intro s name hlen hmem
    rw [toggleCompare_compareList, if_neg hmem, if_pos (by omega)]

/-- Witness for C3: five successive additions from the empty store stay
within the bound, and adding `"d"` to the full list `["a", "b", "c"]`
drops `"a"` and appends `"d"`. -/
theorem toggleCompare_bound_and_fifo_witness :
    (runCompares ["a", "b", "c", "d", "e"] emptyStore).compareList.length ≤ 3 ∧
    (toggleCompare "d" fullCompareStore).compareList =
      fullCompareStore.compareList.tail ++ ["d"] :=
  ⟨toggleCompare_bound_and_fifo.1 emptyStore ["a", "b", "c", "d", "e"] (by decide),
   toggleCompare_bound_and_fifo.2 fullCompareStore "d" (by decide) (by decide)⟩

/-- C4: a `checkAchievements` call whose scan newly unlocks at least one
achievement (the `unlockedNew` flag of the scan is set) persists the
scanned unlock map, fires the celebration exactly once, and adds exactly
`+5` to the score — once per call, however many achievements the scan
unlocked simultaneously. -/
theorem checkAchievements_single_bonus (s : Store)
    (h : (scanUnlocks s.userStats achievementDefs s.achievementsUnlocked).2 = true) :
    checkAchievements s =
      { s with
        achievementsUnlocked :=
          (scanUnlocks s.userStats achievementDefs s.achievementsUnlocked).1,
        confettiBursts := s.confettiBursts + 1,
        userPoints := s.userPoints + 5 } := by
  simp only [checkAchievements, h]
  rfl

/-- Witness for C4 at `doubleUnlockStore`, whose counters unlock two
achievements at once: the score still rises by exactly 5, not 10. -/
theorem checkAchievements_single_bonus_witness :
    checkAchievements doubleUnlockStore =
      { doubleUnlockStore with
        achievementsUnlocked :=
          (scanUnlocks doubleUnlockStore.userStats achievementDefs
            doubleUnlockStore.achievementsUnlocked).1,
        confettiBursts := doubleUnlockStore.confettiBursts + 1,
        userPoints := doubleUnlockStore.userPoints + 5 } :=
  checkAchievements_single_bonus doubleUnlockStore (by decide)

/-- C5: achievement unlocks are monotone — once an achievement key reads
`true` in the persisted unlock map, it still reads `true` after any
sequence of page operations (counter increments, evaluator runs, point
grants, favorite and compare toggles). -/
theorem achievements_unlock_monotone (key : String) (s : Store) (ops : List Op)
    (h : getFlag s.achievementsUnlocked key = true) :
    getFlag (applyOps ops s).achievementsUnlocked key = true := by
  induction ops generalizing s with
  | nil => exact h
  | cons o rest ih => exact ih (applyOp o s) (applyOp_preserves o s key h)

/-- Witness for C5: `quizMaster`, unlocked in `unlockedStore`, stays
unlocked across a mixed operation sequence. -/
theorem achievements_unlock_monotone_witness :
    getFlag (applyOps
        [Op.stat "surprises", Op.check, Op.fav "a", Op.comp "b", Op.points 3]
        unlockedStore).achievementsUnlocked "quizMaster" = true :=
  achievements_unlock_monotone "quizMaster" unlockedStore
    [Op.stat "surprises", Op.check, Op.fav "a", Op.comp "b", Op.points 3] (by decide)

/-- C6: calling `incrementStat m` `k` times from the empty persisted
counter map leaves counter `m` at exactly `k`, and a counter never
decreases across any `incrementStat` call. -/
theorem counter_increments_exact_and_monotone (m : String) (k : Nat) :
    lookupNat (repeatIncrement m k) m = k ∧
    ∀ (metric : String) (stats : StatsMap),
      lookupNat stats m ≤ lookupNat (incrementStat metric stats) m := by
  constructor
  · induction k with
    | zero => rfl
    | succ n ih =>
      rw [repeatIncrement, lookupNat_incrementStat, if_pos rfl, ih]
  · intro metric stats
    rw [lookupNat_incrementStat]
    split_ifs <;> omega

/-- C7 counterexample: with the raw query `" x"` (leading space), category
`"All"`, and a card whose full text is `"x"`, `filterCards` shows the card
(it trims the query before matching), yet `"x"` does not contain `" x"` as
a case-insensitive substring — so visibility is not equivalent to the
category test conjoined with a case-insensitive substring test on the raw
query. -/
theorem filter_raw_query_counterexample :
    ¬ (filterVisible " x" "All" cardX = true ↔
        ("All" = "All" ∨ cardX.category = "All") ∧
        containsCaseless cardX.text " x" = true) := by
  decide

/-- C7 (amended): a card is visible iff the category matches (selected
category `"All"` or equal to the card's) and the card's full text contains
the *trimmed* query as a case-insensitive substring. -/
theorem filter_visibility_spec (inputValue selectedCategory : String) (card : Card) :
    filterVisible inputValue selectedCategory card = true ↔
      (selectedCategory = "All" ∨ card.category = selectedCategory) ∧
      containsCaseless card.text (jsTrim inputValue) = true := by
  simp [filterVisible, containsCaseless]

/-- C8: for each of the five JSON-backed persisted keys, a stored blob on
which the parse throws yields the same result as an absent key — the empty
default — and no error escapes the accessor (it is total, returning the
default on the `failed` branch); every operation consuming the accessor
therefore behaves exactly as if the key were absent. -/
theorem malformed_storage_defaults :
    (getStats .failed = [] ∧ getStats .failed = getStats .missing) ∧
    (getUnlockedAchievements .failed = [] ∧
      getUnlockedAchievements .failed = getUnlockedAchievements .missing) ∧
    (getTrendingCounts .failed = [] ∧
      getTrendingCounts .failed = getTrendingCounts .missing) ∧
    (getFavorites .failed = [] ∧ getFavorites .failed = getFavorites .missing) ∧
    (getCompareList .failed = [] ∧ getCompareList .failed = getCompareList .missing) :=
  ⟨⟨rfl, rfl⟩, ⟨rfl, rfl⟩, ⟨rfl, rfl⟩, ⟨rfl, rfl⟩, ⟨rfl, rfl⟩⟩

/-- C9: whatever permutation the random shuffle produces, the board
`startMemoryGame` builds has exactly 16 cards over exactly 8 distinct
symbols, each appearing exactly twice. -/
theorem memory_board_symbols (board : List String) (h : board.Perm memoryDeck) :
    board.length = 16 ∧ memoryIcons.length = 8 ∧ memoryIcons.Nodup ∧
    ∀ icon : String, board.count icon = if icon ∈ memoryIcons then 2 else 0 := by
  refine ⟨by rw [h.length_eq]; rfl, rfl, by decide, ?_⟩
  intro icon
  rw [h.count_eq]
  unfold memoryDeck
  rw [List.count_append]
  by_cases hm : icon ∈ memoryIcons
  · rw [if_pos hm, List.count_eq_one_of_mem (by decide) hm]
  · rw [if_neg hm, List.count_eq_zero_of_not_mem hm]

/-- Witness for C9 at the unshuffled deck itself. -/
theorem memory_board_symbols_witness :
    memoryDeck.length = 16 ∧ memoryIcons.length = 8 ∧ memoryIcons.Nodup ∧
    ∀ icon : String, memoryDeck.count icon = if icon ∈ memoryIcons then 2 else 0 :=
  memory_board_symbols memoryDeck (List.Perm.refl memoryDeck)

/-- C10: for every raw query and every card, the standalone live search
handler of the earlier script variant computes the same per-card
visibility as `filterCards` with the category filter at `"All"` (which is
also the value used when the category element is absent): both trim and
lowercase the input and show the card iff its lowercased text contains
it. -/
theorem legacy_search_matches_filter (inputValue : String) (card : Card) :
    oldFilterVisible inputValue card = filterVisible inputValue "All" card := by
  simp [oldFilterVisible, filterVisible]

end VRSite
